import Mathlib

/-!
Shallow embedding of the dependency-resolution retry loop of `envy.py`
(single-file Python launcher).  The pure decision logic of the source is
translated into executable Lean definitions:

* `find_missing_modules`   — the regex-based failure classifier (envy.py:187-201)
* `is_local_module`        — local-module detection (envy.py:458-469)
* `handle_missing_dependencies` — the dependency resolver (envy.py:393-456)
* `run_app_in_venv`        — result of one target execution (envy.py:165-185)
* `run_application` / `runLoop` — the retry orchestrator (envy.py:676-712)
* `mainExitCode`           — the process exit status, modelling the fact that
                             `run_application` is invoked on a worker thread
                             (envy.py:662-674)

External effects (the file system, the subprocess outcomes of each execution
of the target) are supplied by oracles (`FS`, `World`); installs, sleeps and
executions are recorded in an event trace.
-/

/-- Word characters accepted by the capture groups `[\w\d_]+` of the two
regexes in `find_missing_modules` (ASCII fragment of Python word chars). -/
def isWordChar (c : Char) : Bool := c.isAlphanum || c == '_'

/-- Quote characters accepted by the regex character class matching either
kind of quote around the captured identifier. -/
def isQuote (c : Char) : Bool := c.toNat == 39 || c.toNat == 34

/-- The double-quote character (code 34). -/
def dquote : Char := '"'

/-- Longest prefix of word characters, together with the rest of the input:
the greedy `[\w\d_]+` step of the regex (no backtracking is ever needed,
because the character after the capture must be a quote, which is not a
word character). -/
def takeWord : List Char → List Char × List Char
  | [] => ([], [])
  | c :: rest =>
    if isWordChar c then
      let p := takeWord rest
      (c :: p.1, p.2)
    else ([], c :: rest)

/-- Match a literal pattern at the head of the input, returning the rest. -/
def stripLit : List Char → List Char → Option (List Char)
  | [], s => some s
  | _ :: _, [] => none
  | p :: ps, c :: cs => if c == p then stripLit ps cs else none

/-- Try to match `lit ['"] ( [\w\d_]+ ) ['"]` at the current position,
returning the capture and the input following the whole match. -/
def matchAt (lit : List Char) (s : List Char) : Option (List Char × List Char) :=
  match stripLit lit s with
  | none => none
  | some r1 =>
    match r1 with
    | [] => none
    | q1 :: r2 =>
      if isQuote q1 then
        let p := takeWord r2
        match p.1, p.2 with
        | [], _ => none
        | _ :: _, [] => none
        | w1 :: ws, q2 :: r4 => if isQuote q2 then some (w1 :: ws, r4) else none
      else none

/-- Scan of `re.findall`: leftmost non-overlapping matches, resuming after
each match.  Fuel equal to the input length is always sufficient because
every step consumes at least one character of the input. -/
def scanAllAux (lit : List Char) : Nat → List Char → List String
  | _, [] => []
  | 0, _ :: _ => []
  | fuel + 1, c :: rest =>
    match matchAt lit (c :: rest) with
    | some (w, after) => String.mk w :: scanAllAux lit fuel after
    | none => scanAllAux lit fuel rest

/-- All captures of the pattern `lit ['"]([\w\d_]+)['"]` over the input. -/
def scanAll (lit : List Char) (s : List Char) : List String :=
  scanAllAux lit s.length s

/-- Whether `pat` occurs at the head of the input. -/
def headIs : List Char → List Char → Bool
  | [], _ => true
  | _ :: _, [] => false
  | p :: ps, c :: cs => c == p && headIs ps cs

/-- Substring containment, the semantics of the Python `in` operator. -/
def containsSub (pat : List Char) : List Char → Bool
  | [] => headIs pat []
  | c :: cs => headIs pat (c :: cs) || containsSub pat cs

/-- Literal part of the first regex of `find_missing_modules` (envy.py:193). -/
def pat1 : List Char := "No module named ".data

/-- Literal part of the second regex of `find_missing_modules` (envy.py:194). -/
def pat2 : List Char := "ImportError: cannot import name ".data

/-- The Qt-bindings-not-found error signature (envy.py:197). -/
def qtSigL : List Char :=
  "qtpy.QtBindingsNotFoundError: No Qt bindings could be found".data

/-- Failure classifier (envy.py:187-201): captures of the two regexes, in
order, then the fixed fallback identifier when the Qt signature occurs. -/
def find_missing_modules (error_message : String) : List String :=
  let missing := scanAll pat1 error_message.data
  let missing := missing ++ scanAll pat2 error_message.data
  if containsSub qtSigL error_message.data then missing ++ ["PyQt5"] else missing

example : find_missing_modules "No module named \"requests\"" = ["requests"] := by decide
example : find_missing_modules "boom" = [] := by decide
example :
    find_missing_modules
      "x\nNo module named \"Foo_1\" y No module named \"bar\"\nImportError: cannot import name \"Baz\""
      = ["Foo_1", "bar", "Baz"] := by decide

/-- Module-to-package mapping of envy.py:20-25 (keys lowercase). -/
def MODULE_PACKAGE_MAP : List (String × String) :=
  [("pil", "Pillow"), ("qtawesome", "qtawesome"), ("qt_material", "qt-material")]

/-- Secondary modules to install last (envy.py:28). -/
def SECONDARY_MODULES : List String := ["qtawesome", "qt_material"]

/-- ASCII lowering, the `str.lower()` used for map lookup and tier membership. -/
def lowerStr (s : String) : String := String.mk (s.data.map Char.toLower)

/-- Association-list lookup (Python `dict.get`). -/
def mapGet : List (String × String) → String → Option String
  | [], _ => none
  | (k, v) :: rest, key => if key == k then some v else mapGet rest key

/-- Package name for a module identifier: `MODULE_PACKAGE_MAP.get(module.lower(), module)`
(envy.py:428,439). -/
def mapPackage (module : String) : String :=
  match mapGet MODULE_PACKAGE_MAP (lowerStr module) with
  | some p => p
  | none => module

/-- List membership by string equality (Python set membership). -/
def memberStr : List String → String → Bool
  | [], _ => false
  | x :: xs, s => s == x || memberStr xs s

/-- Whether an identifier belongs to the secondary tier:
`module.lower() in SECONDARY_MODULES` (envy.py:416). -/
def tierSec (module : String) : Bool := memberStr SECONDARY_MODULES (lowerStr module)

/-- File-system oracle: which paths (as segment lists relative to the
application directory root) exist. -/
structure FS where
  pathExists : List String → Bool

/-- Local-module test of envy.py:458-469: a same-named `.py` file, or a
same-named directory containing `__init__.py`, beside the target program. -/
def is_local_module (fs : FS) (appDir : List String) (module : String) : Bool :=
  fs.pathExists (appDir ++ [module ++ ".py"]) ||
    fs.pathExists (appDir ++ [module, "__init__.py"])

/-- One install loop of envy.py:422-430 / 433-441: skip local modules,
otherwise install the mapped package; returns the installed package names
in order. -/
def installLoop (fs : FS) (appDir : List String) : List String → List String
  | [] => []
  | m :: rest =>
    if is_local_module fs appDir m then installLoop fs appDir rest
    else mapPackage m :: installLoop fs appDir rest

/-- The partition loop of envy.py:412-419: one pass appending each
identifier to the primary or the secondary accumulator. -/
def splitTiers : List String → List String → List String → List String × List String
  | [], prim, sec => (prim, sec)
  | m :: rest, prim, sec =>
    if tierSec m then splitTiers rest prim (sec ++ [m])
    else splitTiers rest (prim ++ [m]) sec

/-- Install sequence of one attempt (envy.py:412-441): primary-tier
installs first, then secondary-tier installs. -/
def installBatch (fs : FS) (appDir : List String) (mods : List String) : List String :=
  let p := splitTiers mods [] []
  installLoop fs appDir p.1 ++ installLoop fs appDir p.2

/-- Specification-side batch with no local filtering: package names of the
primary partition followed by those of the secondary partition. -/
def installBatchAll (mods : List String) : List String :=
  (mods.filter fun m => !(tierSec m)).map mapPackage ++
    (mods.filter tierSec).map mapPackage

/-- Result of one invocation of the dependency resolver: the package
installs it performed (in order) and its boolean return value. -/
structure HMDResult where
  installs : List String
  resolved : Bool
deriving DecidableEq

/-- Dependency resolver, envy.py:393-456, given the diagnostic execution's
exit code and captured stderr.  `force_install` is accepted (envy.py:393)
but never read, exactly as in the source.  Install failures abort the whole
process in the source (envy.py:215); the model records the attempted
install sequence. -/
def handle_missing_dependencies (fs : FS) (appDir : List String)
    (returncode : Int) (stderr : String) (force_install : Bool) : HMDResult :=
  if returncode ≠ 0 then
    let missing := find_missing_modules stderr
    if missing ≠ [] then
      { installs := installBatch fs appDir missing, resolved := true }
    else if containsSub qtSigL stderr.data then
      { installs := ["PyQt5"], resolved := true }
    else
      { installs := [], resolved := false }
  else
    { installs := [], resolved := false }

/-- Empty file system (no local modules). -/
def fsNone : FS := ⟨fun _ => false⟩

/-- File system in which exactly `localmod.py` exists beside the target. -/
def fsLocal : FS := ⟨fun p => p == ["localmod.py"]⟩

example :
    handle_missing_dependencies fsNone [] 1 "No module named \"requests\"" false
      = { installs := ["requests"], resolved := true } := by decide
example :
    handle_missing_dependencies fsLocal [] 1 "No module named \"localmod\"" false
      = { installs := [], resolved := true } := by decide
example :
    handle_missing_dependencies fsNone [] 1 "No module named \"qtawesome\"" false
      = { installs := ["qtawesome"], resolved := true } := by decide
example :
    handle_missing_dependencies fsNone [] 1 "No module named \"PIL\" and No module named \"qt_material\"" false
      = { installs := ["Pillow", "qt-material"], resolved := true } := by decide
example :
    handle_missing_dependencies fsNone [] 0 "No module named \"requests\"" false
      = { installs := [], resolved := false } := by decide

/-- Outcome of one attempt to execute the target inside the environment:
either the process ran and exited with a code, or it could not be started
at all (e.g. the interpreter is missing, raising FileNotFoundError). -/
inductive RunOutcome
  | exited (code : Int)
  | launchError
deriving DecidableEq

/-- Return value of `run_app_in_venv` (envy.py:165-185): `check_call`
returns normally only on exit code 0; `CalledProcessError` (non-zero exit)
and any other exception (launch failure) are both caught and yield `False`. -/
def run_app_in_venv (o : RunOutcome) : Bool :=
  match o with
  | RunOutcome.exited code => code == 0
  | RunOutcome.launchError => false

/-- Whether the target process actually started. -/
def startedOf (o : RunOutcome) : Bool :=
  match o with
  | RunOutcome.launchError => false
  | RunOutcome.exited _ => true

/-- Oracle for the external world: outcome and captured stderr of the k-th
attempt to start the target inside the environment (both the primary run of
each loop iteration and the diagnostic run of the resolver consume one
index). -/
structure World where
  outcomes : Nat → RunOutcome
  stderrOf : Nat → String

/-- Observable events of one orchestrator run, in order. -/
inductive Event
  | primExec (started : Bool)
  | diagExec (started : Bool)
  | installPkg (p : String)
  | sleepFor (d : Nat)
deriving DecidableEq

/-- Terminal state of the retry loop: normal return (success), exit after
failed resolution (unresolved), or exit after the attempt budget
(exhausted). -/
inductive Terminal
  | succeeded
  | unresolvedFail
  | exhausted
deriving DecidableEq

/-- The diagnostic step of the resolver (envy.py:398-410): re-run the target
capturing stderr, then classify and install.  A launch failure raises an
exception caught at envy.py:453, yielding `False` with no installs. -/
def diagStep (w : World) (fs : FS) (appDir : List String) (force : Bool)
    (execIdx : Nat) : List Event × Bool :=
  match w.outcomes execIdx with
  | RunOutcome.launchError => ([Event.diagExec false], false)
  | RunOutcome.exited code =>
    let r := handle_missing_dependencies fs appDir code (w.stderrOf execIdx) force
    (Event.diagExec true :: r.installs.map Event.installPkg, r.resolved)

/-- Attempt bound of envy.py:688. -/
def max_attempts : Nat := 12

/-- The retry loop of `run_application` (envy.py:688-712).  `fuel`
structurally bounds the recursion; the top level supplies
`fuel = max_attempts` with `attempt = 1`, so `attempt + fuel =
max_attempts + 1` throughout and the fuel never runs out before the
`attempt <= max_attempts` guard does.  Returns the event trace and the
terminal state. -/
def runLoop (w : World) (fs : FS) (appDir : List String) (force : Bool)
    (delay : Nat) : Nat → Nat → Nat → List Event × Terminal
  | 0, _, _ => ([], Terminal.exhausted)
  | fuel + 1, attempt, execIdx =>
    let o := w.outcomes execIdx
    if run_app_in_venv o then
      ([Event.primExec (startedOf o)], Terminal.succeeded)
    else if attempt < max_attempts then
      let d := diagStep w fs appDir force (execIdx + 1)
      if d.2 then
        let rest := runLoop w fs appDir force delay fuel (attempt + 1) (execIdx + 2)
        (Event.primExec (startedOf o) :: d.1 ++ Event.sleepFor delay :: rest.1, rest.2)
      else
        (Event.primExec (startedOf o) :: d.1, Terminal.unresolvedFail)
    else
      ([Event.primExec (startedOf o)], Terminal.exhausted)

/-- `run_application` (envy.py:676-712): the retry loop started at attempt 1. -/
def run_application (w : World) (fs : FS) (appDir : List String) (force : Bool)
    (delay : Nat) : List Event × Terminal :=
  runLoop w fs appDir force delay max_attempts 1 0

/-- Events that are actual executions of the target (a process start that
succeeded, whether the primary run or the diagnostic run). -/
def isExecEvent : Event → Bool
  | Event.primExec s => s
  | Event.diagExec s => s
  | _ => false

/-- Events that are primary-run invocations (`run_app_in_venv` calls). -/
def isPrimEvent : Event → Bool
  | Event.primExec _ => true
  | _ => false

/-- Number of actual target executions in a trace. -/
def execCount (tr : List Event) : Nat := tr.countP isExecEvent

/-- Number of loop iterations (primary `run_app_in_venv` calls) in a trace. -/
def primCount (tr : List Event) : Nat := tr.countP isPrimEvent

/-- How the worker thread running `run_application` ends: normal return on
success, otherwise `sys.exit(1)` which raises `SystemExit` inside the
thread (envy.py:706, 712). -/
inductive ThreadEnd
  | normalEnd
  | sysExit (code : Nat)
deriving DecidableEq

/-- Thread ending for each terminal state of the loop. -/
def threadEndOf (t : Terminal) : ThreadEnd :=
  match t with
  | Terminal.succeeded => ThreadEnd.normalEnd
  | Terminal.unresolvedFail => ThreadEnd.sysExit 1
  | Terminal.exhausted => ThreadEnd.sysExit 1

/-- Process exit status of the launcher when an application is run:
`run_application` is invoked on a worker thread (envy.py:663-674), and in
CPython a `SystemExit` raised in a non-main thread is silently ignored by
`threading.excepthook`; `app_thread.join()` then returns, `main()` falls
off its end, and the interpreter exits with status 0 — in every case. -/
def mainExitCode (w : World) (fs : FS) (appDir : List String) (force : Bool)
    (delay : Nat) : Nat :=
  match threadEndOf (run_application w fs appDir force delay).2 with
  | ThreadEnd.normalEnd => 0
  | ThreadEnd.sysExit _ => 0

/-- `os.pathsep` on the POSIX platforms the launcher targets. -/
def os_pathsep : String := ":"

/-- PYTHONPATH passed to the primary execution (envy.py:172-176): the
target program's parent directory prepended to the inherited value. -/
def run_env_pythonpath (app_dir existing : String) : String :=
  if existing ≠ "" then app_dir ++ os_pathsep ++ existing else app_dir

/-- PYTHONPATH seen by the diagnostic execution (envy.py:401-405):
`subprocess.run` is called without an `env` argument, so the inherited
value is unchanged. -/
def diag_env_pythonpath (existing : String) : String := existing

/-- World in which every execution exits 1 naming a missing module. -/
def wC1 : World := ⟨fun _ => RunOutcome.exited 1, fun _ => "No module named \"foo\""⟩

/-- World in which every execution exits 1 with unclassifiable stderr. -/
def wUnres : World := ⟨fun _ => RunOutcome.exited 1, fun _ => "boom"⟩

/-- World in which the first execution succeeds. -/
def wOk : World := ⟨fun _ => RunOutcome.exited 0, fun _ => ""⟩

/-- World in which the target can never be started at all. -/
def wLaunch : World := ⟨fun _ => RunOutcome.launchError, fun _ => ""⟩

example :
    run_application wOk fsNone [] false 2
      = ([Event.primExec true], Terminal.succeeded) := by decide
example :
    run_application wUnres fsNone [] false 2
      = ([Event.primExec true, Event.diagExec true], Terminal.unresolvedFail) := by decide
example : (run_application wC1 fsNone [] false 2).2 = Terminal.exhausted := by decide
example : execCount (run_application wC1 fsNone [] false 2).1 = 23 := by decide
example : primCount (run_application wC1 fsNone [] false 2).1 = 12 := by decide

/-- If the classifier extracted nothing, the Qt signature is absent: the
fallback branch at envy.py:446-449 is unreachable, because the signature
would already have added the fallback identifier at envy.py:197-199. -/
lemma no_sig_of_classifier_nil (s : String) (h : find_missing_modules s = []) :
    containsSub qtSigL s.data = false := by
  cases hcs : containsSub qtSigL s.data with
  | false => rfl
  | true => simp [find_missing_modules, hcs] at h

/-- The one-pass partition loop appends the order-preserving tier filters
to its accumulators. -/
lemma splitTiers_eq (mods : List String) : ∀ prim sec,
    splitTiers mods prim sec
      = (prim ++ mods.filter (fun m => !(tierSec m)), sec ++ mods.filter tierSec) := by
  induction mods with
  | nil => intro prim sec; simp [splitTiers]
  | cons m rest ih =>
    intro prim sec
    cases h : tierSec m with
    | true => simp [splitTiers, h, ih, List.filter_cons, List.append_assoc]
    | false => simp [splitTiers, h, ih, List.filter_cons, List.append_assoc]

/-- The install loop installs exactly the mapped packages of the non-local
identifiers, in order. -/
lemma installLoop_eq (fs : FS) (appDir : List String) (mods : List String) :
    installLoop fs appDir mods
      = (mods.filter fun m => !(is_local_module fs appDir m)).map mapPackage := by
  induction mods with
  | nil => rfl
  | cons m rest ih =>
    cases h : is_local_module fs appDir m with
    | true => simp [installLoop, h, ih, List.filter_cons]
    | false => simp [installLoop, h, ih, List.filter_cons]

/-- Two order-preserving filters commute. -/
lemma filter_swap {α : Type} (p q : α → Bool) (l : List α) :
    (l.filter p).filter q = (l.filter q).filter p := by
  induction l with
  | nil => rfl
  | cons a t ih =>
    cases hp : p a <;> cases hq : q a <;> simp [List.filter_cons, hp, hq, ih]

/-- The resolver ignores its force flag definitionally. -/
lemma hmd_force (fs : FS) (appDir : List String) (rc : Int) (err : String)
    (f1 f2 : Bool) :
    handle_missing_dependencies fs appDir rc err f1
      = handle_missing_dependencies fs appDir rc err f2 := rfl

/-- The diagnostic step ignores the force flag. -/
lemma diagStep_force (w : World) (fs : FS) (appDir : List String)
    (f1 f2 : Bool) (i : Nat) :
    diagStep w fs appDir f1 i = diagStep w fs appDir f2 i := by
  unfold diagStep
  cases w.outcomes i <;> rfl

/-- The retry loop ignores the force flag. -/
lemma runLoop_force (w : World) (fs : FS) (appDir : List String) (delay : Nat)
    (f1 f2 : Bool) : ∀ fuel attempt execIdx,
    runLoop w fs appDir f1 delay fuel attempt execIdx
      = runLoop w fs appDir f2 delay fuel attempt execIdx := by
  intro fuel
  induction fuel with
  | zero => intro _ _; rfl
  | succ n ih =>
    intro attempt execIdx
    simp only [runLoop, diagStep_force w fs appDir f1 f2, ih]

/-- Install events contribute nothing to any event count whose predicate
rejects installs. -/
lemma countP_map_installPkg (p : Event → Bool)
    (h : ∀ s, p (Event.installPkg s) = false) (l : List String) :
    (l.map Event.installPkg).countP p = 0 := by
  induction l with
  | nil => rfl
  | cons a t ih => simp [List.countP_cons, h, ih]

/-- The diagnostic step contains no primary-run event and at most one
actual execution of the target. -/
lemma diag_counts (w : World) (fs : FS) (appDir : List String) (force : Bool)
    (i : Nat) :
    primCount (diagStep w fs appDir force i).1 = 0 ∧
    execCount (diagStep w fs appDir force i).1 ≤ 1 := by
  unfold diagStep
  cases w.outcomes i with
  | launchError => simp [primCount, execCount, List.countP_cons, isExecEvent, isPrimEvent]
  | exited c =>
    constructor
    · simp [primCount, List.countP_cons, isPrimEvent,
        countP_map_installPkg isPrimEvent (fun _ => rfl)]
    · simp [execCount, List.countP_cons, isExecEvent,
        countP_map_installPkg isExecEvent (fun _ => rfl)]

/-- Count cons law for executions. -/
lemma execCount_cons (e : Event) (tr : List Event) :
    execCount (e :: tr) = execCount tr + (if isExecEvent e then 1 else 0) :=
  List.countP_cons _ _ _

/-- Count append law for executions. -/
lemma execCount_append (a b : List Event) :
    execCount (a ++ b) = execCount a + execCount b :=
  List.countP_append _ _ _

/-- Empty trace has no executions. -/
lemma execCount_nil : execCount [] = 0 := rfl

/-- Count cons law for primary runs. -/
lemma primCount_cons (e : Event) (tr : List Event) :
    primCount (e :: tr) = primCount tr + (if isPrimEvent e then 1 else 0) :=
  List.countP_cons _ _ _

/-- Count append law for primary runs. -/
lemma primCount_append (a b : List Event) :
    primCount (a ++ b) = primCount a + primCount b :=
  List.countP_append _ _ _

/-- Empty trace has no primary runs. -/
lemma primCount_nil : primCount [] = 0 := rfl

/-- Per-iteration bound: with the top-level invariant
`max_attempts + 1 <= attempt + fuel`, the loop performs at most `fuel`
primary runs and at most `2 * fuel - 1` actual executions of the target. -/
lemma runLoop_counts (w : World) (fs : FS) (appDir : List String)
    (force : Bool) (delay : Nat) : ∀ fuel attempt execIdx,
    max_attempts + 1 ≤ attempt + fuel →
    primCount (runLoop w fs appDir force delay fuel attempt execIdx).1 ≤ fuel ∧
    execCount (runLoop w fs appDir force delay fuel attempt execIdx).1 ≤ 2 * fuel - 1 := by
  intro fuel
  induction fuel with
  | zero => intro attempt execIdx _; simp [runLoop, primCount, execCount]
  | succ n ih =>
    intro attempt execIdx h
    cases hst : startedOf (w.outcomes execIdx) with
    | _ =>
      by_cases hs : run_app_in_venv (w.outcomes execIdx) = true
      · simp [runLoop, hs, hst, execCount_cons, execCount_nil, primCount_cons,
          primCount_nil, isExecEvent, isPrimEvent]
        try omega
      · by_cases ha : attempt < max_attempts
        · have hd := diag_counts w fs appDir force (execIdx + 1)
          by_cases hr : (diagStep w fs appDir force (execIdx + 1)).2 = true
          · have hrec := ih (attempt + 1) (execIdx + 2) (by omega)
            simp [runLoop, hs, ha, hr, hst, execCount_cons, execCount_append,
              execCount_nil, primCount_cons, primCount_append, primCount_nil,
              isExecEvent, isPrimEvent]
            try omega
          · simp [runLoop, hs, ha, hr, hst, execCount_cons, execCount_append,
              execCount_nil, primCount_cons, primCount_append, primCount_nil,
              isExecEvent, isPrimEvent]
            try omega
        · simp [runLoop, hs, ha, hst, execCount_cons, execCount_nil,
            primCount_cons, primCount_nil, isExecEvent, isPrimEvent]
          try omega

/-- Stripping a literal off itself leaves the remainder. -/
lemma stripLit_self (p : List Char) : ∀ r, stripLit p (p ++ r) = some r := by
  induction p with
  | nil => intro r; rfl
  | cons c cs ih => intro r; simp [stripLit, ih]

/-- Whether the head of the input fails to be a word character. -/
def headNotWord : List Char → Bool
  | [] => true
  | c :: _ => !isWordChar c

/-- The greedy word step takes exactly an all-word-character block when the
following character is not a word character. -/
lemma takeWord_all (cs : List Char) (tl : List Char)
    (hw : ∀ c ∈ cs, isWordChar c = true) (ht : headNotWord tl = true) :
    takeWord (cs ++ tl) = (cs, tl) := by
  induction cs with
  | nil =>
    cases tl with
    | nil => rfl
    | cons c r =>
      have hc : isWordChar c = false := by
        simpa [headNotWord] using ht
      simp [takeWord, hc]
  | cons c cs0 ih =>
    have hc : isWordChar c = true := hw c (by simp)
    have hw0 : ∀ x ∈ cs0, isWordChar x = true := fun x hx => hw x (by simp [hx])
    simp [takeWord, hc, ih hw0]

/-- The full regex step matches a nonempty quoted word block placed right
after the literal, capturing exactly the word block, case untouched. -/
lemma matchAt_exact (lit cs : List Char) (hne : cs ≠ [])
    (hw : ∀ c ∈ cs, isWordChar c = true) :
    matchAt lit (lit ++ dquote :: (cs ++ [dquote])) = some (cs, []) := by
  cases cs with
  | nil => exact absurd rfl hne
  | cons c0 cs0 =>
    have hq : isQuote dquote = true := by decide
    have ht : takeWord ((c0 :: cs0) ++ [dquote]) = (c0 :: cs0, [dquote]) :=
      takeWord_all _ _ hw (by decide)
    simp only [List.cons_append] at ht
    unfold matchAt
    rw [stripLit_self]
    simp [ht, hq]

/-- A scan whose first position matches with nothing left afterwards yields
exactly that one capture. -/
lemma scanAllAux_last (lit : List Char) (c : Char) (t w : List Char)
    (h : matchAt lit (c :: t) = some (w, [])) (fuel : Nat) :
    scanAllAux lit (fuel + 1) (c :: t) = [String.mk w] := by
  cases fuel <;> simp [scanAllAux, h]

/-- C1, counterexample: in a run where the target always exits 1 naming a
missing module, all twelve loop iterations fail, and each of the first
eleven resolutions re-executes the target to capture its stderr
(envy.py:401-405), so the target is executed 23 times in total —
exceeding `max_attempts` (12), which the claim states as a bound on every
execution of the target inside the environment. -/
theorem c1_counterexample :
    execCount (run_application wC1 fsNone [] false 2).1 = 23 ∧
    max_attempts < execCount (run_application wC1 fsNone [] false 2).1 :=
  ⟨by decide, by decide⟩

/-- C1, amended: the retry loop calls `run_app_in_venv` at most
`max_attempts` (12) times, and counting also the diagnostic re-execution
performed inside each resolution, the target is executed at most
`2 * max_attempts - 1` (23) times in total. -/
theorem c1_amended :
    ∀ (w : World) (fs : FS) (appDir : List String) (force : Bool) (delay : Nat),
    primCount (run_application w fs appDir force delay).1 ≤ max_attempts ∧
    execCount (run_application w fs appDir force delay).1 ≤ 2 * max_attempts - 1 := by
  intro w fs appDir force delay
  exact runLoop_counts w fs appDir force delay max_attempts 1 0 (by decide)

/-- C2 (code bug): `run_application` is executed on a worker thread
(envy.py:663-674); its `sys.exit(1)` on the Exhausted (envy.py:712) and
Unresolved (envy.py:706) paths raises `SystemExit` inside that thread,
which CPython threading silently ignores, so the launcher process exits
with status 0 after every terminal state — contradicting the claim that
Exhausted and Unresolved produce a non-zero status.  The succeeded case
exits 0 as claimed. -/
theorem c2_threaded_exit_code :
    threadEndOf (run_application wUnres fsNone [] false 2).2 = ThreadEnd.sysExit 1 ∧
    mainExitCode wUnres fsNone [] false 2 = 0 ∧
    threadEndOf (run_application wC1 fsNone [] false 2).2 = ThreadEnd.sysExit 1 ∧
    mainExitCode wC1 fsNone [] false 2 = 0 ∧
    threadEndOf (run_application wOk fsNone [] false 2).2 = ThreadEnd.normalEnd ∧
    mainExitCode wOk fsNone [] false 2 = 0 :=
  ⟨by decide, by decide, by decide, by decide, by decide, by decide⟩

/-- C3, counterexample: when the only extracted identifier is a local
module (a `localmod.py` exists beside the target), the resolver performs
no installation yet still returns `True` (envy.py:443 is reached
unconditionally once the identifier list is nonempty), so `resolved` is
not equivalent to "at least one installation was attempted". -/
theorem c3_counterexample :
    (handle_missing_dependencies fsLocal [] 1 "No module named \"localmod\"" false).resolved
        = true ∧
    (handle_missing_dependencies fsLocal [] 1 "No module named \"localmod\"" false).installs
        = [] :=
  ⟨by decide, by decide⟩

/-- C3, amended: `resolved` is true iff the diagnostic run exited non-zero
and the classifier extracted at least one identifier; a local-module-only
identifier list therefore yields `resolved = true` with an empty install
batch, and only an empty identifier list (whose signature fallback is
unreachable) or a zero exit yields `resolved = false`. -/
theorem c3_amended :
    ∀ (fs : FS) (appDir : List String) (rc : Int) (err : String) (force : Bool),
    (handle_missing_dependencies fs appDir rc err force).resolved
      = (decide (rc ≠ 0) && !(find_missing_modules err).isEmpty) := by
  intro fs appDir rc err force
  by_cases hrc : rc = 0
  · subst hrc; simp [handle_missing_dependencies]
  · by_cases hm : find_missing_modules err = []
    · have hsig := no_sig_of_classifier_nil err hm
      simp [handle_missing_dependencies, hrc, hm, hsig]
    · simp [handle_missing_dependencies, hrc, hm, List.isEmpty_iff]

/-- C4, counterexample: a failure to start the target at all is caught by
the blanket handler of envy.py:182-185 and reported as the same `False`
that a non-zero exit produces, so the two conditions are not reported
distinctly; the orchestrator then invokes the resolver, whose diagnostic
step attempts to start the target once more, so the run is not terminated
without retry either. -/
theorem c4_counterexample :
    run_app_in_venv RunOutcome.launchError = run_app_in_venv (RunOutcome.exited 1) ∧
    run_application wLaunch fsNone [] false 2
      = ([Event.primExec false, Event.diagExec false], Terminal.unresolvedFail) :=
  ⟨by decide, by decide⟩

/-- C4, amended: when the target can never be started, `run_app_in_venv`
returns the same `False` as for an ordinary non-zero exit; the orchestrator
then attempts dependency resolution, whose diagnostic execution also fails
to start, so resolution returns false and the run terminates through the
Unresolved path after exactly one further start attempt — the launch
failure is neither retried further nor distinguished from a failing exit. -/
theorem c4_amended :
    ∀ (w : World) (fs : FS) (appDir : List String) (force : Bool) (delay : Nat),
    (∀ k, w.outcomes k = RunOutcome.launchError) →
    run_application w fs appDir force delay
        = ([Event.primExec false, Event.diagExec false], Terminal.unresolvedFail) ∧
    run_app_in_venv RunOutcome.launchError = run_app_in_venv (RunOutcome.exited 1) := by
  intro w fs appDir force delay h
  refine ⟨?_, rfl⟩
  unfold run_application
  show runLoop w fs appDir force delay (11 + 1) 1 0 = _
  simp [runLoop, diagStep, h 0, h 1, run_app_in_venv, startedOf, max_attempts]

/-- C4, witness for the amended statement at a concrete world. -/
theorem c4_witness :
    (∀ k, wLaunch.outcomes k = RunOutcome.launchError) ∧
    (run_application wLaunch fsNone [] false 2
        = ([Event.primExec false, Event.diagExec false], Terminal.unresolvedFail) ∧
      run_app_in_venv RunOutcome.launchError = run_app_in_venv (RunOutcome.exited 1)) :=
  ⟨fun _ => rfl, c4_amended wLaunch fsNone [] false 2 (fun _ => rfl)⟩

/-- Diagnostic text used in the C5 witness: one local and one installable
identifier. -/
def errTwo : String := "No module named \"localmod\"\nNo module named \"requests\""

/-- C5 (confirmed): identifiers for which a same-named source file, or a
same-named sub-directory containing `__init__.py`, exists beside the
target program never reach the installer — the install sequence of the
resolver is exactly the tier-ordered batch computed from the non-local
identifiers alone (the signature fallback of envy.py:446-449, which skips
the local check, is unreachable). -/
theorem c5_local_modules_never_installed :
    ∀ (fs : FS) (appDir : List String) (rc : Int) (err : String) (force : Bool),
    rc ≠ 0 →
    (handle_missing_dependencies fs appDir rc err force).installs
      = installBatchAll ((find_missing_modules err).filter
          fun m => !(is_local_module fs appDir m)) := by
  intro fs appDir rc err force hrc
  by_cases hm : find_missing_modules err = []
  · have hsig := no_sig_of_classifier_nil err hm
    simp [handle_missing_dependencies, hrc, hm, hsig, installBatchAll]
  · have h1 : ((find_missing_modules err).filter
        (fun m => !(is_local_module fs appDir m))).filter (fun m => !(tierSec m))
      = ((find_missing_modules err).filter
        (fun m => !(tierSec m))).filter (fun m => !(is_local_module fs appDir m)) :=
      filter_swap _ _ _
    have h2 : ((find_missing_modules err).filter
        (fun m => !(is_local_module fs appDir m))).filter tierSec
      = ((find_missing_modules err).filter
        tierSec).filter (fun m => !(is_local_module fs appDir m)) :=
      filter_swap _ _ _
    simp [handle_missing_dependencies, hrc, hm, installBatch, installBatchAll,
      splitTiers_eq, installLoop_eq, h1, h2]

/-- C5, witness: a mixed local / installable identifier pair. -/
theorem c5_witness :
    (1 : Int) ≠ 0 ∧
    (handle_missing_dependencies fsLocal [] 1 errTwo false).installs
      = installBatchAll ((find_missing_modules errTwo).filter
          fun m => !(is_local_module fsLocal [] m)) :=
  ⟨by decide, c5_local_modules_never_installed fsLocal [] 1 errTwo false (by decide)⟩

/-- C6 (confirmed): the install sequence of one attempt is the whole
primary-tier sub-batch followed by the whole secondary-tier sub-batch
(tier membership is the case-insensitive denylist test of envy.py:416), so
no secondary-tier installation ever precedes a primary-tier installation
of the same attempt; and a batch whose primary tier is empty still
installs its secondary tier, also under a differently-cased identifier. -/
theorem c6_secondary_after_primary :
    (∀ (fs : FS) (appDir : List String) (mods : List String),
      installBatch fs appDir mods
        = installLoop fs appDir (mods.filter fun m => !(tierSec m))
            ++ installLoop fs appDir (mods.filter tierSec)) ∧
    installBatch fsNone [] ["qtawesome"] = ["qtawesome"] ∧
    installBatch fsNone [] ["QtAwesome"] = ["qtawesome"] := by
  refine ⟨?_, by decide, by decide⟩
  intro fs appDir mods
  simp [installBatch, splitTiers_eq]

/-- C7 (confirmed): on a failing attempt below the attempt bound whose
diagnostic run exits non-zero with a diagnostic text from which the
classifier extracts nothing, the loop ends at once in the Unresolved
terminal state (envy.py:705-706): the trace of the whole remaining loop is
just the failing primary run and the diagnostic run — no sleep event and
no further execution of the target. -/
theorem c7_unresolved_immediate :
    ∀ (w : World) (fs : FS) (appDir : List String) (force : Bool)
      (delay fuel attempt execIdx : Nat) (c c2 : Int),
    attempt < max_attempts →
    w.outcomes execIdx = RunOutcome.exited c → c ≠ 0 →
    w.outcomes (execIdx + 1) = RunOutcome.exited c2 → c2 ≠ 0 →
    find_missing_modules (w.stderrOf (execIdx + 1)) = [] →
    runLoop w fs appDir force delay (fuel + 1) attempt execIdx
      = ([Event.primExec true, Event.diagExec true], Terminal.unresolvedFail) := by
  intro w fs appDir force delay fuel attempt execIdx c c2 ha h0 hc h1 hc2 hm
  have hsig := no_sig_of_classifier_nil _ hm
  have hd : diagStep w fs appDir force (execIdx + 1) = ([Event.diagExec true], false) := by
    simp [diagStep, h1, handle_missing_dependencies, hc2, hm, hsig]
  simp [runLoop, h0, run_app_in_venv, hc, ha, hd, startedOf]

/-- C7, witness: the unclassifiable-failure world at attempt 1. -/
theorem c7_witness :
    (1 < max_attempts ∧ wUnres.outcomes 0 = RunOutcome.exited 1 ∧ (1 : Int) ≠ 0 ∧
      wUnres.outcomes 1 = RunOutcome.exited 1 ∧
      find_missing_modules (wUnres.stderrOf 1) = []) ∧
    runLoop wUnres fsNone [] false 2 (9 + 1) 1 0
      = ([Event.primExec true, Event.diagExec true], Terminal.unresolvedFail) :=
  ⟨⟨by decide, by decide, by decide, by decide, by decide⟩,
    c7_unresolved_immediate wUnres fsNone [] false 2 9 1 0 1 1
      (by decide) (by decide) (by decide) (by decide) (by decide) (by decide)⟩

/-- C8 (confirmed): the classifier output is the concatenation, in pattern
application order with duplicates permitted, of the captures of the
"No module named" pattern, then the captures of the "cannot import name"
pattern, then the fixed fallback identifier PyQt5 exactly when the
diagnostic text contains the Qt-bindings-not-found signature; and the
first pattern captures exactly the quoted identifier, case preserved, for
any nonempty word-character identifier. -/
theorem c8_classifier_concat :
    (∀ s : String, find_missing_modules s
        = scanAll pat1 s.data ++ scanAll pat2 s.data
          ++ (if containsSub qtSigL s.data then ["PyQt5"] else [])) ∧
    (∀ cs : List Char, cs ≠ [] → (∀ c ∈ cs, isWordChar c = true) →
      scanAll pat1 (pat1 ++ dquote :: (cs ++ [dquote])) = [String.mk cs]) := by
  constructor
  · intro s
    by_cases h : containsSub qtSigL s.data = true
    · simp [find_missing_modules, h, List.append_assoc]
    · simp [find_missing_modules, h]
  · intro cs hne hw
    have hm : matchAt pat1 (pat1 ++ dquote :: (cs ++ [dquote])) = some (cs, []) :=
      matchAt_exact pat1 cs hne hw
    have hp : pat1 ++ dquote :: (cs ++ [dquote])
        = 'N' :: ("o module named ".data ++ dquote :: (cs ++ [dquote])) := rfl
    unfold scanAll
    rw [hp, List.length_cons]
    exact scanAllAux_last pat1 'N' _ cs (hp ▸ hm) _

/-- C8, witness: a mixed-case identifier in double quotes. -/
theorem c8_witness :
    ("ReQuests".data ≠ [] ∧ (∀ c ∈ "ReQuests".data, isWordChar c = true)) ∧
    scanAll pat1 (pat1 ++ dquote :: ("ReQuests".data ++ [dquote]))
      = [String.mk "ReQuests".data] :=
  ⟨⟨by decide, by decide⟩,
    c8_classifier_concat.2 "ReQuests".data (by decide) (by decide)⟩

/-- C9 (confirmed): the force/no-prompt flag has no observable effect: the
resolver produces the same installs and the same result for both flag
values, and the whole orchestrator run (trace and terminal state) is
identical for any two flag values. -/
theorem c9_force_flag_no_effect :
    (∀ (fs : FS) (appDir : List String) (rc : Int) (err : String),
      handle_missing_dependencies fs appDir rc err true
        = handle_missing_dependencies fs appDir rc err false) ∧
    (∀ (w : World) (fs : FS) (appDir : List String) (delay : Nat) (f1 f2 : Bool),
      run_application w fs appDir f1 delay = run_application w fs appDir f2 delay) := by
  constructor
  · intro fs appDir rc err
    exact hmd_force fs appDir rc err true false
  · intro w fs appDir delay f1 f2
    unfold run_application
    exact runLoop_force w fs appDir delay f1 f2 max_attempts 1 0

/-- C10 (confirmed): the primary execution runs with the target program
directory prepended to PYTHONPATH (envy.py:172-176), the diagnostic
execution of the resolver inherits PYTHONPATH unchanged (envy.py:401-405),
and for a nonempty program directory the two values always differ, so the
two executions of one attempt run under different environments. -/
theorem c10_pythonpath_difference :
    ∀ app_dir existing : String, app_dir ≠ "" →
    (∃ rest, run_env_pythonpath app_dir existing = app_dir ++ rest) ∧
    diag_env_pythonpath existing = existing ∧
    run_env_pythonpath app_dir existing ≠ diag_env_pythonpath existing := by
  intro a e ha
  by_cases he : e = ""
  · subst he
    refine ⟨⟨"", ?_⟩, rfl, ?_⟩
    · simp [run_env_pythonpath, String.append_empty]
    · simpa [run_env_pythonpath, diag_env_pythonpath] using ha
  · refine ⟨⟨os_pathsep ++ e, ?_⟩, rfl, ?_⟩
    · simp [run_env_pythonpath, he]
      apply String.ext
      simp [String.data_append]
    · have hrun : run_env_pythonpath a e = a ++ os_pathsep ++ e := by
        simp [run_env_pythonpath, he]
      rw [hrun]
      intro hcontra
      have hlen : (a ++ os_pathsep ++ e).data.length = e.data.length := by
        rw [show diag_env_pythonpath e = e from rfl] at hcontra
        rw [hcontra]
      simp [String.data_append, os_pathsep] at hlen
      have : a.data = [] := List.eq_nil_of_length_eq_zero (by omega)
      apply ha
      cases a with
      | mk d =>
        cases this
        rfl

/-- C10, witness: a concrete program directory with empty inherited path. -/
theorem c10_witness :
    ("/opt/app" : String) ≠ "" ∧
    ((∃ rest, run_env_pythonpath "/opt/app" "" = "/opt/app" ++ rest) ∧
      diag_env_pythonpath "" = "" ∧
      run_env_pythonpath "/opt/app" "" ≠ diag_env_pythonpath "") :=
  ⟨by decide, c10_pythonpath_difference "/opt/app" "" (by decide)⟩
